import Mathlib

/-!
Shallow embedding of `src/ssai/claude_code_executor.py`: the bridge between
the A2A protocol and the Claude Agent SDK.  Pure data is modelled directly;
the effects of `execute` (event emission, console logging, session-registry
updates, workspace creation, cancellation-flag registration, and any
exception escaping the coroutine) are modelled as an explicit `ExecOutcome`
record computed from an `ExecEnv` describing one invocation: the inbound
message parts, the task/context ids, the engine's message stream (with an
optional exception terminating it), an optional fault raised by workspace
directory creation, and the iteration index at which the task's cancellation
flag is first observed set.
-/

namespace SSAI

/-- Python truthiness of an optional string: `None` and `""` are falsy. -/
def pyTruthy : Option String → Bool
  | none => false
  | some s => s != ""

/-- Python `x or ""` for an optional string. -/
def orEmpty : Option String → String
  | none => ""
  | some s => s

/-- Python f-string rendering of an optional string (`None` renders as "None"). -/
def pyShow : Option String → String
  | none => "None"
  | some s => s

/-- The A2A task states used by the bridge (`TaskState`). -/
inductive TState
  | working
  | completed
  | failed
  | canceled
  deriving DecidableEq, Repr

/-- An agent `Message` built by `new_agent_text_message(text, final)`. -/
structure AgentMessage where
  text : String
  final : Bool
  deriving DecidableEq, Repr

/-- A `TaskStatusUpdateEvent`: task/context ids, state, optional message, final flag. -/
structure StatusUpdate where
  taskId : String
  contextId : String
  state : TState
  message : Option AgentMessage
  final : Bool
  deriving DecidableEq, Repr

/-- A `TaskArtifactUpdateEvent` with a single text part. -/
structure ArtifactUpdate where
  taskId : String
  contextId : String
  text : String
  name : String
  lastChunk : Bool
  append : Bool
  deriving DecidableEq, Repr

/-- One event enqueued on the A2A `EventQueue`. -/
inductive Event
  | status : StatusUpdate → Event
  | artifact : ArtifactUpdate → Event
  | message : AgentMessage → Event
  deriving DecidableEq, Repr

/-- Is the event a final-flagged status update? -/
def Event.isFinalStatus : Event → Bool
  | .status e => e.final
  | _ => false

/-- Is the event an artifact update? -/
def Event.isArtifact : Event → Bool
  | .artifact _ => true
  | _ => false

/-- The texts of the artifact events of a sequence, in emission order. -/
def artifactTexts (evs : List Event) : List String :=
  evs.filterMap (fun e =>
    match e with
    | Event.artifact a => some a.text
    | _ => none)

/-- The input of a `ToolUseBlock` as seen by the serialization code: a JSON
mapping (values already rendered by `json.dumps(..., default=str)`), a
non-mapping value together with its `str()` coercion, or an absent
`input` attribute (`getattr(block, "input", None)` returning `None`). -/
inductive ToolInput
  | mapping : List (String × String) → ToolInput
  | nonMapping : String → ToolInput
  | absent
  deriving DecidableEq, Repr

/-- `json.dumps` of a string-keyed mapping whose values are pre-rendered. -/
def json_dumps (entries : List (String × String)) : String :=
  "\x7b" ++ String.intercalate ", " (entries.map (fun kv => "\"" ++ kv.1 ++ "\": " ++ kv.2)) ++ "\x7d"

/-- Lines 356-361: serialize a tool input; `json.dumps` for a mapping, `str()`
coercion for any other non-`None` value, `""` when absent. Total: no input
shape makes it fail. -/
def input_summary : ToolInput → String
  | .mapping es => json_dumps es
  | .nonMapping s => s
  | .absent => ""

/-- A content block of an `AssistantMessage`. -/
inductive Block
  | text : String → Block
  | toolUse : String → ToolInput → Block
  | toolResult
  | otherBlock
  deriving DecidableEq, Repr

/-- One message of the engine stream produced by `claude_agent_sdk.query`. -/
inductive EngineMsg
  | assistant : List Block → EngineMsg
  | result : Option String → EngineMsg
  | other : String → EngineMsg
  deriving DecidableEq, Repr

/-- A part of the inbound A2A message (`part.root`). -/
inductive APart
  | textPart : String → APart
  | filePart : Option String → APart
  | dataPart
  deriving DecidableEq, Repr

/-- `extract_user_text`: concatenate the text of `TextPart`s and a marker line
for each `FilePart`, newline-joined; `""` when the message is absent, has no
parts, or yields no entries. -/
def extract_user_text : Option (List APart) → String
  | none => ""
  | some ps =>
    if ps = [] then ""
    else
      let parts := ps.filterMap (fun p =>
        match p with
        | APart.textPart s => some s
        | APart.filePart n => some ("[Attached file: " ++ n.getD "uploaded_file" ++ "]")
        | APart.dataPart => none)
      if parts = [] then "" else String.intercalate "\n" parts

/-- `_log_to_console`: the list of stdout lines (zero or one) it prints.
Silent unless verbose; messages beyond 500 characters are truncated. -/
def log_to_console (verbose : Bool) (tag msg : String) (taskId : Option String) : List String :=
  if verbose then
    let pfx := if pyTruthy taskId then "[task=" ++ orEmpty taskId ++ "] " else ""
    let msg2 := if msg.length > 500 then (msg.take 500).push '…' else msg
    ["  " ++ pfx ++ tag ++ ": " ++ msg2]
  else []

/-- The session registry: `task_id → session_id`, insertion-ordered. -/
def SMap := List (String × String)

/-- `SessionTracker.get`. -/
def SessionTracker.get (m : List (String × String)) (k : String) : Option String :=
  (m.find? (fun p => p.1 = k)).map (fun p => p.2)

/-- `SessionTracker.set`: Python dict assignment (overwrite in place, else append). -/
def SessionTracker.set (m : List (String × String)) (k v : String) : List (String × String) :=
  if (m.find? (fun p => p.1 = k)).isSome then
    m.map (fun p => if p.1 = k then (k, v) else p)
  else m ++ [(k, v)]

/-- The keys of the static `MCP_REGISTRY`. -/
def MCP_REGISTRY : List String := ["secret"]

/-- Bridge configuration (`ClaudeCodeConfig`). -/
structure ClaudeCodeConfig where
  workspace_root : String
  system_prompt : String
  allowed_tools : List String
  permission_mode : String
  model : Option String
  max_turns : Option Nat
  mcp_servers : List String
  verbose : Bool
  deriving DecidableEq, Repr

/-- The `ClaudeCodeConfig.__init__` defaults for a given workspace root. -/
def defaultConfig (root : String) : ClaudeCodeConfig where
  workspace_root := root
  system_prompt :=
    "You are a coding agent exposed via the A2A protocol. " ++
    "Complete the user's request thoroughly. " ++
    "When you produce files, mention their paths explicitly."
  allowed_tools := ["Read", "Write", "Edit", "MultiEdit", "Bash", "Glob", "Grep", "WebSearch"]
  permission_mode := "bypassPermissions"
  model := none
  max_turns := none
  mcp_servers := []
  verbose := false

/-- The SDK options assembled by `_build_options`. `mcp_servers` keeps the
names attached from the registry (dict keys, first occurrence kept). -/
structure ClaudeAgentOptions where
  system_prompt : String
  allowed_tools : List String
  permission_mode : String
  cwd : String
  model : Option String
  max_turns : Option Nat
  mcp_servers : List String
  resume : Option String
  continue_conversation : Bool
  deriving DecidableEq, Repr

/-- Insert a dict key, keeping the first occurrence. -/
def dictInsertKey (ks : List String) (k : String) : List String :=
  if ks.contains k then ks else ks ++ [k]

/-- The loop of `_build_options` over requested MCP server names: collect the
registry keys present (dict semantics) and one `mcp__name__*` tool per
occurrence of a known name. -/
def buildMcp : List String → List String × List String
  | [] => ([], [])
  | n :: rest =>
    let (ks, ts) := buildMcp rest
    if MCP_REGISTRY.contains n then (dictInsertKey ks n, ("mcp__" ++ n ++ "__*") :: ts)
    else (ks, ts)

/-- Python truthiness of an optional count: `None` and `0` are falsy. -/
def pyTruthyNat : Option Nat → Bool
  | none => false
  | some n => n != 0

/-- `_build_options` before its final session-resume step: the base options
record, the `model`/`max_turns` overrides, and the MCP server attachment. -/
def base_options (cfg : ClaudeCodeConfig) (workspace : String) : ClaudeAgentOptions :=
  let opts : ClaudeAgentOptions :=
    { system_prompt := cfg.system_prompt
      allowed_tools := cfg.allowed_tools
      permission_mode := cfg.permission_mode
      cwd := workspace
      model := none
      max_turns := none
      mcp_servers := []
      resume := none
      continue_conversation := false }
  let opts := if pyTruthy cfg.model then { opts with model := cfg.model } else opts
  let opts := if pyTruthyNat cfg.max_turns then { opts with max_turns := cfg.max_turns } else opts
  if cfg.mcp_servers ≠ [] then
    if (buildMcp cfg.mcp_servers).1 ≠ [] then
      { opts with mcp_servers := (buildMcp cfg.mcp_servers).1
                  allowed_tools := opts.allowed_tools ++ (buildMcp cfg.mcp_servers).2 }
    else opts
  else opts

/-- `_build_options` (lines 227-262). -/
def build_options (cfg : ClaudeCodeConfig) (sessions : List (String × String))
    (task_id : Option String) (workspace : String) : ClaudeAgentOptions :=
  let opts := base_options cfg workspace
  if pyTruthy task_id then
    match SessionTracker.get sessions (orEmpty task_id) with
    | some sid =>
      if sid != "" then { opts with resume := some sid, continue_conversation := true }
      else opts
    | none => opts
  else opts

/-- `_workspace_for_task`: the directory path it creates and returns
(`freshName` stands for the `uuid4()` drawn when the task id is falsy). -/
def workspace_for_task (root : String) (task_id : Option String) (freshName : String) : String :=
  root ++ "/" ++ (if pyTruthy task_id then orEmpty task_id else freshName)

/-- What processing one content block of an `AssistantMessage` produces:
text fragments appended to `collected_text`, events enqueued, console lines. -/
structure BlockOut where
  texts : List String
  events : List Event
  logs : List String
  deriving DecidableEq, Repr

/-- Lines 334-382: the inner loop body over `msg.content`.  A non-empty
`TextBlock` is collected and streamed as a non-final working status carrying
the fragment; a `ToolUseBlock` is logged with its serialized input and
announced to the caller by a non-final working status naming the tool;
every other block kind has no effect. -/
def processBlock (verbose : Bool) (tid ctx : String) (task_id : Option String) : Block → BlockOut
  | Block.text s =>
    if s != "" then
      { texts := [s]
        events := [Event.status ⟨tid, ctx, TState.working, some ⟨s, false⟩, false⟩]
        logs := log_to_console verbose "ASSISTANT" s task_id }
    else ⟨[], [], []⟩
  | Block.toolUse name input =>
    { texts := []
      events := [Event.status ⟨tid, ctx, TState.working, some ⟨"🔧 Using tool: " ++ name, false⟩, false⟩]
      logs := log_to_console verbose "TOOL_USE" (name ++ "(" ++ input_summary input ++ ")") task_id }
  | Block.toolResult => ⟨[], [], []⟩
  | Block.otherBlock => ⟨[], [], []⟩

/-- What processing one engine message produces; `sessionUpd = some sid`
records the unconditional assignment `session_id = getattr(msg, "session_id", None)`
performed on a `ResultMessage`. -/
structure MsgOut where
  texts : List String
  events : List Event
  sessionUpd : Option (Option String)
  logs : List String
  deriving DecidableEq, Repr

/-- Lines 333-390: dispatch on the engine message kind. -/
def processMsg (verbose : Bool) (tid ctx : String) (task_id : Option String) : EngineMsg → MsgOut
  | EngineMsg.assistant blocks =>
    let outs := blocks.map (processBlock verbose tid ctx task_id)
    { texts := (outs.map BlockOut.texts).flatten
      events := (outs.map BlockOut.events).flatten
      sessionUpd := none
      logs := (outs.map BlockOut.logs).flatten }
  | EngineMsg.result sid =>
    { texts := [], events := [], sessionUpd := some sid
      logs := log_to_console verbose "RESULT" ("session_id=" ++ pyShow sid) task_id }
  | EngineMsg.other tn =>
    { texts := [], events := [], sessionUpd := none
      logs := log_to_console verbose "MSG" tn task_id }

/-- Whether `cancel_event.is_set()` observes `true` at loop iteration `i`:
the flag is monotone, first seen set at index `cancelAt` (never, if `none`). -/
def cancelObserved (cancelAt : Option Nat) (i : Nat) : Bool :=
  match cancelAt with
  | some k => k ≤ i
  | none => false

/-- The result of the `async for` loop over the engine stream. -/
structure LoopOut where
  events : List Event
  logs : List String
  collected : List String
  session : Option String
  cancelled : Bool
  deriving DecidableEq, Repr

/-- Lines 319-390: consume the engine stream starting at iteration index `i`
with accumulator `coll` and current `session_id`.  Each iteration first polls
the cancellation flag; if it is set, a terminal canceled status is emitted and
consumption stops at once. -/
def consume (verbose : Bool) (tid ctx : String) (task_id : Option String)
    (cancelAt : Option Nat) :
    Nat → List EngineMsg → List String → Option String → LoopOut
  | _, [], coll, sess => ⟨[], [], coll, sess, false⟩
  | i, m :: rest, coll, sess =>
    if cancelObserved cancelAt i then
      ⟨[Event.status ⟨tid, ctx, TState.canceled, none, true⟩], [], coll, sess, true⟩
    else
      let mo := processMsg verbose tid ctx task_id m
      let lo := consume verbose tid ctx task_id cancelAt (i + 1) rest (coll ++ mo.texts)
        (mo.sessionUpd.getD sess)
      ⟨mo.events ++ lo.events, mo.logs ++ lo.logs, lo.collected, lo.session, lo.cancelled⟩

/-- The environment of one `execute` invocation. `stream` lists the engine
messages yielded before the stream either exhausts (`streamFault = none`) or
raises (`streamFault = some description`); `wsFault` is an `IOError` raised by
workspace directory creation; `cancelAt` is the first loop iteration at which
the task's cancellation flag would be observed set; `freshWsName` is the
`uuid4()` drawn for the workspace folder when the task id is falsy. -/
structure ExecEnv where
  messageParts : Option (List APart)
  taskId : Option String
  contextId : Option String
  stream : List EngineMsg
  streamFault : Option String
  wsFault : Option String
  cancelAt : Option Nat
  freshWsName : String
  deriving DecidableEq, Repr

/-- The observable outcome of one `execute` invocation: the events enqueued in
order, the console lines printed by `_log_to_console`, the session registry
after the call, the exception escaping `execute` (if any), whether the
workspace directory was created, whether a cancellation flag was registered
for the task, the SDK options passed to `query` (when reached), and the
terminal state of the run (if one was reached). -/
structure ExecOutcome where
  events : List Event
  logs : List String
  sessions : List (String × String)
  uncaught : Option String
  wsCreated : Bool
  cancelRegistered : Bool
  optsUsed : Option ClaudeAgentOptions
  terminal : Option TState
  deriving DecidableEq, Repr

/-- The first status event of a run: "Claude Code is working on your request…". -/
def initialWorkingEvent (tid ctx : String) : Event :=
  Event.status ⟨tid, ctx, TState.working,
    some ⟨"Claude Code is working on your request…", false⟩, false⟩

/-- The advisory message sent back for an empty payload. -/
def emptyInputAdvisory : Event :=
  Event.message ⟨"I didn't receive any input. Could you send a message?", true⟩

/-- `ClaudeCodeExecutor.execute` (lines 266-452).  The cancellation flag can
only be observed set when it was registered, which requires a truthy task id;
`_cancel_events` registration happens after workspace creation, and the
`finally` block removes it on every exit from the `try`, so `cancelRegistered`
records whether a flag was ever registered for the call. -/
def ClaudeCodeExecutor.execute (cfg : ClaudeCodeConfig) (sessions : List (String × String))
    (env : ExecEnv) : ExecOutcome :=
  let user_text := extract_user_text env.messageParts
  if user_text = "" then
    { events := [emptyInputAdvisory], logs := [], sessions := sessions, uncaught := none
      wsCreated := false, cancelRegistered := false, optsUsed := none, terminal := none }
  else
    let tid := orEmpty env.taskId
    let ctx := orEmpty env.contextId
    match env.wsFault with
    | some e =>
      { events := [], logs := [], sessions := sessions, uncaught := some e
        wsCreated := false, cancelRegistered := false, optsUsed := none, terminal := none }
    | none =>
      let workspace := workspace_for_task cfg.workspace_root env.taskId env.freshWsName
      let creg := pyTruthy env.taskId
      let opts := build_options cfg sessions env.taskId workspace
      let cancelAtEff := if pyTruthy env.taskId then env.cancelAt else none
      let lo := consume cfg.verbose tid ctx env.taskId cancelAtEff 0 env.stream [] none
      if lo.cancelled then
        { events := initialWorkingEvent tid ctx :: lo.events, logs := lo.logs
          sessions := sessions, uncaught := none, wsCreated := true
          cancelRegistered := creg, optsUsed := some opts, terminal := some TState.canceled }
      else
        match env.streamFault with
        | some exc =>
          { events := initialWorkingEvent tid ctx :: lo.events ++
              [Event.status ⟨tid, ctx, TState.failed,
                some ⟨"Execution error: " ++ exc, true⟩, true⟩]
            logs := lo.logs, sessions := sessions, uncaught := none, wsCreated := true
            cancelRegistered := creg, optsUsed := some opts, terminal := some TState.failed }
        | none =>
          let sessions2 :=
            if pyTruthy env.taskId && pyTruthy lo.session then
              SessionTracker.set sessions tid (orEmpty lo.session)
            else sessions
          let final_text :=
            if lo.collected = [] then "Done." else String.intercalate "\n" lo.collected
          { events := initialWorkingEvent tid ctx :: lo.events ++
              [Event.artifact ⟨tid, ctx, final_text, "claude_code_response", true, false⟩,
               Event.status ⟨tid, ctx, TState.completed, none, true⟩]
            logs := lo.logs, sessions := sessions2, uncaught := none, wsCreated := true
            cancelRegistered := creg, optsUsed := some opts, terminal := some TState.completed }

/-- `ClaudeCodeExecutor.cancel` (lines 456-477), as a function of the set of
task ids currently registered in `_cancel_events`.  Returns the events
enqueued and whether a live cancellation flag was set.  Total: no task id
makes it raise. -/
def ClaudeCodeExecutor.cancel (cancelEvents : List String)
    (taskId contextId : Option String) : List Event × Bool :=
  if cancelEvents.contains (orEmpty taskId) then ([], true)
  else ([Event.status ⟨orEmpty taskId, orEmpty contextId, TState.canceled, none, true⟩], false)

/-- The non-empty text fragments one content block contributes to `collected_text`. -/
def blockFragments : Block → List String
  | Block.text s => if s != "" then [s] else []
  | _ => []

/-- The non-empty assistant text fragments one engine message contributes. -/
def msgFragments : EngineMsg → List String
  | EngineMsg.assistant bs => (bs.map blockFragments).flatten
  | _ => []

/-- All assistant text fragments of a stream, in arrival order. -/
def streamFragments (msgs : List EngineMsg) : List String :=
  (msgs.map msgFragments).flatten

/-- The value of the `session_id` local after processing a stream: every
`ResultMessage` overwrites it with that message's (possibly absent) id. -/
def streamSession : List EngineMsg → Option String → Option String
  | [], sess => sess
  | EngineMsg.result sid :: rest, _ => streamSession rest sid
  | EngineMsg.assistant _ :: rest, sess => streamSession rest sess
  | EngineMsg.other _ :: rest, sess => streamSession rest sess

/-- The events the translator emits for a stream consumed without cancellation. -/
def streamEvents (verbose : Bool) (tid ctx : String) (task_id : Option String)
    (msgs : List EngineMsg) : List Event :=
  (msgs.map (fun m => (processMsg verbose tid ctx task_id m).events)).flatten

/-- The console lines the translator prints for a stream consumed without cancellation. -/
def streamLogs (verbose : Bool) (tid ctx : String) (task_id : Option String)
    (msgs : List EngineMsg) : List String :=
  (msgs.map (fun m => (processMsg verbose tid ctx task_id m).logs)).flatten

/-- `final_text`: the newline-joined fragments, or the sentinel when none. -/
def joinedText (frs : List String) : String :=
  if frs = [] then "Done." else String.intercalate "\n" frs

/-- The cancellation flag effectively observable by a run: the flag is only
registered in `_cancel_events` (hence reachable by `cancel`) when the task id
is truthy. -/
def effCancelAt (env : ExecEnv) : Option Nat :=
  if pyTruthy env.taskId then env.cancelAt else none

/-- The loop output of a run: proof-side abbreviation of the `consume`
application inside `execute`. -/
def consumeOf (cfg : ClaudeCodeConfig) (env : ExecEnv) : LoopOut :=
  consume cfg.verbose (orEmpty env.taskId) (orEmpty env.contextId) env.taskId
    (effCancelAt env) 0 env.stream [] none

/-- The SDK options a run passes to `query`: proof-side abbreviation. -/
def optsOf (cfg : ClaudeCodeConfig) (sessions : List (String × String))
    (env : ExecEnv) : ClaudeAgentOptions :=
  build_options cfg sessions env.taskId
    (workspace_for_task cfg.workspace_root env.taskId env.freshWsName)

/-- Whether the cancellation flag is observed at some iteration of a loop over
`len` messages whose first iteration has index `i`. -/
def cancelHits (cancelAt : Option Nat) (i len : Nat) : Bool :=
  match cancelAt with
  | some k => decide (0 < len) && decide (k < i + len)
  | none => false

/-- The terminal canceled status event emitted inside the loop. -/
def canceledEvent (tid ctx : String) : Event :=
  Event.status ⟨tid, ctx, TState.canceled, none, true⟩

/-- The terminal failed status event built in the `except` handler. -/
def failedEvent (tid ctx exc : String) : Event :=
  Event.status ⟨tid, ctx, TState.failed, some ⟨"Execution error: " ++ exc, true⟩, true⟩

/-- The terminal completed status event. -/
def completedEvent (tid ctx : String) : Event :=
  Event.status ⟨tid, ctx, TState.completed, none, true⟩

/-- The single-chunk artifact event carrying the final text. -/
def artifactEvent (tid ctx text : String) : Event :=
  Event.artifact ⟨tid, ctx, text, "claude_code_response", true, false⟩

theorem consume_nil (v : Bool) (tid ctx : String) (task : Option String) (cAt : Option Nat)
    (i : Nat) (coll : List String) (sess : Option String) :
    consume v tid ctx task cAt i [] coll sess = ⟨[], [], coll, sess, false⟩ := rfl

theorem consume_cons_stop (v : Bool) (tid ctx : String) (task : Option String)
    (cAt : Option Nat) (i : Nat) (m : EngineMsg) (rest : List EngineMsg)
    (coll : List String) (sess : Option String) (h : cancelObserved cAt i = true) :
    consume v tid ctx task cAt i (m :: rest) coll sess =
      ⟨[canceledEvent tid ctx], [], coll, sess, true⟩ := by
  simp [consume, h, canceledEvent]

theorem consume_cons_go (v : Bool) (tid ctx : String) (task : Option String)
    (cAt : Option Nat) (i : Nat) (m : EngineMsg) (rest : List EngineMsg)
    (coll : List String) (sess : Option String) (h : cancelObserved cAt i = false) :
    consume v tid ctx task cAt i (m :: rest) coll sess =
      (let mo := processMsg v tid ctx task m
       let lo := consume v tid ctx task cAt (i + 1) rest (coll ++ mo.texts)
         (mo.sessionUpd.getD sess)
       ⟨mo.events ++ lo.events, mo.logs ++ lo.logs, lo.collected, lo.session, lo.cancelled⟩) := by
  simp [consume, h]

theorem processBlock_texts (v : Bool) (tid ctx : String) (task : Option String) (b : Block) :
    (processBlock v tid ctx task b).texts = blockFragments b := by
  cases b <;> simp [processBlock, blockFragments] <;> split <;> rfl

theorem processMsg_texts (v : Bool) (tid ctx : String) (task : Option String) (m : EngineMsg) :
    (processMsg v tid ctx task m).texts = msgFragments m := by
  cases m with
  | assistant bs =>
    simp [processMsg, msgFragments, List.map_map, Function.comp_def, processBlock_texts]
  | result sid => rfl
  | other tn => rfl

theorem streamSession_cons (v : Bool) (tid ctx : String) (task : Option String)
    (m : EngineMsg) (rest : List EngineMsg) (sess : Option String) :
    streamSession (m :: rest) sess =
      streamSession rest (((processMsg v tid ctx task m).sessionUpd).getD sess) := by
  cases m <;> rfl

theorem streamEvents_nil (v : Bool) (tid ctx : String) (task : Option String) :
    streamEvents v tid ctx task [] = [] := rfl

theorem streamEvents_cons (v : Bool) (tid ctx : String) (task : Option String)
    (m : EngineMsg) (rest : List EngineMsg) :
    streamEvents v tid ctx task (m :: rest) =
      (processMsg v tid ctx task m).events ++ streamEvents v tid ctx task rest := by
  simp [streamEvents]

theorem streamLogs_cons (v : Bool) (tid ctx : String) (task : Option String)
    (m : EngineMsg) (rest : List EngineMsg) :
    streamLogs v tid ctx task (m :: rest) =
      (processMsg v tid ctx task m).logs ++ streamLogs v tid ctx task rest := by
  simp [streamLogs]

theorem streamFragments_cons (m : EngineMsg) (rest : List EngineMsg) :
    streamFragments (m :: rest) = msgFragments m ++ streamFragments rest := by
  simp [streamFragments]

theorem consume_no_cancel (v : Bool) (tid ctx : String) (task : Option String)
    (cAt : Option Nat) :
    ∀ (msgs : List EngineMsg) (i : Nat) (coll : List String) (sess : Option String),
    (∀ j, j < msgs.length → cancelObserved cAt (i + j) = false) →
    consume v tid ctx task cAt i msgs coll sess =
      ⟨streamEvents v tid ctx task msgs, streamLogs v tid ctx task msgs,
       coll ++ streamFragments msgs, streamSession msgs sess, false⟩
  | [], i, coll, sess, _ => by
    simp [consume_nil, streamEvents, streamLogs, streamFragments, streamSession]
  | m :: rest, i, coll, sess, h => by
    have h0 : cancelObserved cAt i = false := by
      have := h 0 (by simp)
      simpa using this
    rw [consume_cons_go v tid ctx task cAt i m rest coll sess h0]
    have ih := consume_no_cancel v tid ctx task cAt rest (i + 1) (coll ++ (processMsg v tid ctx task m).texts)
      (((processMsg v tid ctx task m).sessionUpd).getD sess)
      (by
        intro j hj
        have := h (j + 1) (by simpa using Nat.succ_lt_succ hj)
        simpa [Nat.add_assoc, Nat.add_comm, Nat.add_left_comm] using this)
    simp only []
    rw [ih]
    simp [streamEvents_cons, streamLogs_cons, streamFragments_cons, processMsg_texts,
      streamSession_cons v tid ctx task, List.append_assoc]

theorem consume_cancelled_eq (v : Bool) (tid ctx : String) (task : Option String)
    (cAt : Option Nat) :
    ∀ (msgs : List EngineMsg) (i : Nat) (coll : List String) (sess : Option String),
    (consume v tid ctx task cAt i msgs coll sess).cancelled = cancelHits cAt i msgs.length
  | [], i, coll, sess => by
    cases cAt <;> simp [consume_nil, cancelHits]
  | m :: rest, i, coll, sess => by
    cases hobs : cancelObserved cAt i with
    | true =>
      rw [consume_cons_stop v tid ctx task cAt i m rest coll sess hobs]
      cases cAt with
      | none => simp [cancelObserved] at hobs
      | some k =>
        have hk : k ≤ i := by simpa [cancelObserved] using hobs
        simp [cancelHits]
        omega
    | false =>
      rw [consume_cons_go v tid ctx task cAt i m rest coll sess hobs]
      simp only []
      rw [consume_cancelled_eq v tid ctx task cAt rest (i + 1)]
      cases cAt with
      | none => simp [cancelHits]
      | some k =>
        have hk : ¬ k ≤ i := by simpa [cancelObserved] using hobs
        simp only [cancelHits, List.length_cons]
        rcases Nat.eq_zero_or_pos rest.length with h0 | h0
        · simp [h0]
          omega
        · simp [h0]
          constructor <;> (intro h; omega)

theorem consume_cancel_shape (v : Bool) (tid ctx : String) (task : Option String) (k : Nat) :
    ∀ (msgs : List EngineMsg) (i : Nat) (coll : List String) (sess : Option String),
    i ≤ k → k < i + msgs.length →
    consume v tid ctx task (some k) i msgs coll sess =
      ⟨streamEvents v tid ctx task (msgs.take (k - i)) ++ [canceledEvent tid ctx],
       streamLogs v tid ctx task (msgs.take (k - i)),
       coll ++ streamFragments (msgs.take (k - i)),
       streamSession (msgs.take (k - i)) sess, true⟩
  | [], i, coll, sess, hik, hlt => by
    simp at hlt
    omega
  | m :: rest, i, coll, sess, hik, hlt => by
    by_cases hki : k ≤ i
    · have hobs : cancelObserved (some k) i = true := by simp [cancelObserved, hki]
      rw [consume_cons_stop v tid ctx task (some k) i m rest coll sess hobs]
      have hz : k - i = 0 := by omega
      simp [hz, streamEvents_nil, streamLogs, streamFragments, streamSession]
    · have hobs : cancelObserved (some k) i = false := by
        simp [cancelObserved]
        omega
      rw [consume_cons_go v tid ctx task (some k) i m rest coll sess hobs]
      simp only []
      rw [consume_cancel_shape v tid ctx task k rest (i + 1)
        (coll ++ (processMsg v tid ctx task m).texts)
        (((processMsg v tid ctx task m).sessionUpd).getD sess)
        (by omega) (by simp at hlt; omega)]
      have htake : (m :: rest).take (k - i) = m :: rest.take (k - (i + 1)) := by
        have : k - i = (k - (i + 1)) + 1 := by omega
        simp [this]
      rw [htake]
      simp [streamEvents_cons, streamLogs_cons, streamFragments_cons, processMsg_texts,
        streamSession_cons v tid ctx task, List.append_assoc]

theorem processBlock_events_working (v : Bool) (tid ctx : String) (task : Option String) :
    ∀ (b : Block), ∀ e ∈ (processBlock v tid ctx task b).events,
      ∃ am, e = Event.status ⟨tid, ctx, TState.working, some am, false⟩
  | Block.text s => by
    simp only [processBlock]
    split
    · intro e he
      simp at he
      exact ⟨⟨s, false⟩, he⟩
    · intro e he
      simp at he
  | Block.toolUse name input => by
    intro e he
    simp [processBlock] at he
    exact ⟨⟨"🔧 Using tool: " ++ name, false⟩, he⟩
  | Block.toolResult => by intro e he; simp [processBlock] at he
  | Block.otherBlock => by intro e he; simp [processBlock] at he

theorem processMsg_events_working (v : Bool) (tid ctx : String) (task : Option String)
    (m : EngineMsg) : ∀ e ∈ (processMsg v tid ctx task m).events,
      ∃ am, e = Event.status ⟨tid, ctx, TState.working, some am, false⟩ := by
  cases m with
  | assistant bs =>
    intro e he
    simp only [processMsg, List.mem_flatten, List.mem_map] at he
    obtain ⟨l, ⟨bo, ⟨b, hb, rfl⟩, rfl⟩, hel⟩ := he
    exact processBlock_events_working v tid ctx task b e hel
  | result sid => intro e he; simp [processMsg] at he
  | other tn => intro e he; simp [processMsg] at he

theorem streamEvents_working (v : Bool) (tid ctx : String) (task : Option String)
    (msgs : List EngineMsg) : ∀ e ∈ streamEvents v tid ctx task msgs,
      ∃ am, e = Event.status ⟨tid, ctx, TState.working, some am, false⟩ := by
  intro e he
  simp only [streamEvents, List.mem_flatten, List.mem_map] at he
  obtain ⟨l, ⟨m, hm, rfl⟩, hel⟩ := he
  exact processMsg_events_working v tid ctx task m e hel

theorem streamEvents_not_final (v : Bool) (tid ctx : String) (task : Option String)
    (msgs : List EngineMsg) : ∀ e ∈ streamEvents v tid ctx task msgs,
      e.isFinalStatus = false ∧ e.isArtifact = false := by
  intro e he
  obtain ⟨am, rfl⟩ := streamEvents_working v tid ctx task msgs e he
  exact ⟨rfl, rfl⟩

theorem execute_empty_path (cfg : ClaudeCodeConfig) (sessions : List (String × String))
    (env : ExecEnv) (h : extract_user_text env.messageParts = "") :
    ClaudeCodeExecutor.execute cfg sessions env =
      { events := [emptyInputAdvisory], logs := [], sessions := sessions, uncaught := none
        wsCreated := false, cancelRegistered := false, optsUsed := none, terminal := none } := by
  simp [ClaudeCodeExecutor.execute, h]

theorem execute_wsfault_path (cfg : ClaudeCodeConfig) (sessions : List (String × String))
    (env : ExecEnv) (e : String) (hne : extract_user_text env.messageParts ≠ "")
    (hws : env.wsFault = some e) :
    ClaudeCodeExecutor.execute cfg sessions env =
      { events := [], logs := [], sessions := sessions, uncaught := some e
        wsCreated := false, cancelRegistered := false, optsUsed := none, terminal := none } := by
  simp [ClaudeCodeExecutor.execute, hne, hws]

theorem execute_canceled_path (cfg : ClaudeCodeConfig) (sessions : List (String × String))
    (env : ExecEnv) (hne : extract_user_text env.messageParts ≠ "")
    (hws : env.wsFault = none) (hc : (consumeOf cfg env).cancelled = true) :
    ClaudeCodeExecutor.execute cfg sessions env =
      { events := initialWorkingEvent (orEmpty env.taskId) (orEmpty env.contextId) ::
          (consumeOf cfg env).events
        logs := (consumeOf cfg env).logs, sessions := sessions, uncaught := none
        wsCreated := true, cancelRegistered := pyTruthy env.taskId
        optsUsed := some (optsOf cfg sessions env), terminal := some TState.canceled } := by
  have hc' := hc
  simp only [consumeOf, effCancelAt] at hc'
  simp [ClaudeCodeExecutor.execute, hne, hws, hc', consumeOf, effCancelAt, optsOf]

theorem execute_failed_path (cfg : ClaudeCodeConfig) (sessions : List (String × String))
    (env : ExecEnv) (exc : String) (hne : extract_user_text env.messageParts ≠ "")
    (hws : env.wsFault = none) (hc : (consumeOf cfg env).cancelled = false)
    (hsf : env.streamFault = some exc) :
    ClaudeCodeExecutor.execute cfg sessions env =
      { events := initialWorkingEvent (orEmpty env.taskId) (orEmpty env.contextId) ::
          (consumeOf cfg env).events ++
          [failedEvent (orEmpty env.taskId) (orEmpty env.contextId) exc]
        logs := (consumeOf cfg env).logs, sessions := sessions, uncaught := none
        wsCreated := true, cancelRegistered := pyTruthy env.taskId
        optsUsed := some (optsOf cfg sessions env), terminal := some TState.failed } := by
  have hc' := hc
  simp only [consumeOf, effCancelAt] at hc'
  simp [ClaudeCodeExecutor.execute, hne, hws, hc', hsf, consumeOf, effCancelAt, optsOf,
    failedEvent]

theorem execute_completed_path (cfg : ClaudeCodeConfig) (sessions : List (String × String))
    (env : ExecEnv) (hne : extract_user_text env.messageParts ≠ "")
    (hws : env.wsFault = none) (hc : (consumeOf cfg env).cancelled = false)
    (hsf : env.streamFault = none) :
    ClaudeCodeExecutor.execute cfg sessions env =
      { events := initialWorkingEvent (orEmpty env.taskId) (orEmpty env.contextId) ::
          (consumeOf cfg env).events ++
          [artifactEvent (orEmpty env.taskId) (orEmpty env.contextId)
             (joinedText (consumeOf cfg env).collected),
           completedEvent (orEmpty env.taskId) (orEmpty env.contextId)]
        logs := (consumeOf cfg env).logs
        sessions :=
          if pyTruthy env.taskId && pyTruthy (consumeOf cfg env).session then
            SessionTracker.set sessions (orEmpty env.taskId) (orEmpty (consumeOf cfg env).session)
          else sessions
        uncaught := none, wsCreated := true, cancelRegistered := pyTruthy env.taskId
        optsUsed := some (optsOf cfg sessions env), terminal := some TState.completed } := by
  have hc' := hc
  simp only [consumeOf, effCancelAt] at hc'
  simp [ClaudeCodeExecutor.execute, hne, hws, hc', hsf, consumeOf, effCancelAt, optsOf,
    artifactEvent, completedEvent, joinedText]

theorem base_options_resume (cfg : ClaudeCodeConfig) (ws : String) :
    (base_options cfg ws).resume = none ∧
    (base_options cfg ws).continue_conversation = false := by
  refine ⟨?_, ?_⟩ <;> (unfold base_options; repeat' split) <;> rfl

theorem not_cancelHits_observed (cAt : Option Nat) (len : Nat)
    (h : cancelHits cAt 0 len = false) :
    ∀ j, j < len → cancelObserved cAt j = false := by
  intro j hj
  cases cAt with
  | none => rfl
  | some k =>
    simp only [cancelHits, Nat.zero_add, Bool.and_eq_false_iff, decide_eq_false_iff_not] at h
    simp only [cancelObserved, decide_eq_false_iff_not]
    omega

theorem consumeOf_not_cancelled (cfg : ClaudeCodeConfig) (env : ExecEnv)
    (hc : (consumeOf cfg env).cancelled = false) :
    consumeOf cfg env =
      ⟨streamEvents cfg.verbose (orEmpty env.taskId) (orEmpty env.contextId) env.taskId env.stream,
       streamLogs cfg.verbose (orEmpty env.taskId) (orEmpty env.contextId) env.taskId env.stream,
       streamFragments env.stream, streamSession env.stream none, false⟩ := by
  have hhits : cancelHits (effCancelAt env) 0 env.stream.length = false := by
    have := consume_cancelled_eq cfg.verbose (orEmpty env.taskId) (orEmpty env.contextId)
      env.taskId (effCancelAt env) env.stream 0 [] none
    rw [consumeOf] at hc
    rw [hc] at this
    exact this.symm
  have := consume_no_cancel cfg.verbose (orEmpty env.taskId) (orEmpty env.contextId)
    env.taskId (effCancelAt env) env.stream 0 [] none
    (by
      intro j hj
      have := not_cancelHits_observed (effCancelAt env) env.stream.length hhits j hj
      simpa using this)
  rw [consumeOf]
  simpa using this

theorem get_map_overwrite (k v : String) : ∀ m : List (String × String),
    SessionTracker.get (m.map (fun p => if p.1 = k then (k, v) else p)) k =
      if (m.find? (fun p => p.1 = k)).isSome then some v else none := by
  intro m
  induction m with
  | nil => rfl
  | cons p rest ih =>
    by_cases h : p.1 = k
    · simp [SessionTracker.get, List.find?, h]
    · simp only [List.map_cons, if_neg h, SessionTracker.get, List.find?, decide_eq_true_eq,
        if_neg h, decide_eq_false h] at ih ⊢
      exact ih

theorem get_append_new (k v : String) : ∀ m : List (String × String),
    (m.find? (fun p => p.1 = k)) = none →
    SessionTracker.get (m ++ [(k, v)]) k = some v := by
  intro m
  induction m with
  | nil => intro _; simp [SessionTracker.get, List.find?]
  | cons p rest ih =>
    intro h
    rw [List.find?_cons] at h
    split at h
    · exact absurd h (by simp)
    · rename_i hfalse
      simp only [List.cons_append, SessionTracker.get, List.find?, hfalse]
      exact ih h

theorem SessionTracker.get_set (k v : String) (m : List (String × String)) :
    SessionTracker.get (SessionTracker.set m k v) k = some v := by
  unfold SessionTracker.set
  cases hfind : m.find? (fun p => p.1 = k) with
  | some p =>
    rw [if_pos (by simp [hfind])]
    rw [get_map_overwrite]
    simp [hfind]
  | none =>
    rw [if_neg (by simp [hfind])]
    exact get_append_new k v m hfind

theorem build_options_configured (cfg : ClaudeCodeConfig) (sessions : List (String × String))
    (task_id : Option String) (ws : String) (sid : String)
    (ht : pyTruthy task_id = true)
    (hget : SessionTracker.get sessions (orEmpty task_id) = some sid) (hs : sid ≠ "") :
    (build_options cfg sessions task_id ws).resume = some sid ∧
    (build_options cfg sessions task_id ws).continue_conversation = true := by
  unfold build_options
  simp [ht, hget, bne_iff_ne, hs]

theorem build_options_not_configured (cfg : ClaudeCodeConfig)
    (sessions : List (String × String)) (task_id : Option String) (ws : String)
    (h : pyTruthy task_id = false ∨ SessionTracker.get sessions (orEmpty task_id) = none) :
    (build_options cfg sessions task_id ws).resume = none ∧
    (build_options cfg sessions task_id ws).continue_conversation = false := by
  unfold build_options
  rcases h with h | h
  · simpa [h] using base_options_resume cfg ws
  · by_cases ht : pyTruthy task_id
    · simpa [ht, h] using base_options_resume cfg ws
    · simpa [ht] using base_options_resume cfg ws

theorem execute_completed_inv (cfg : ClaudeCodeConfig) (sessions : List (String × String))
    (env : ExecEnv)
    (h : (ClaudeCodeExecutor.execute cfg sessions env).terminal = some TState.completed) :
    extract_user_text env.messageParts ≠ "" ∧ env.wsFault = none ∧
    (consumeOf cfg env).cancelled = false ∧ env.streamFault = none := by
  by_cases h1 : extract_user_text env.messageParts = ""
  · rw [execute_empty_path cfg sessions env h1] at h
    simp at h
  · cases hws : env.wsFault with
    | some e =>
      rw [execute_wsfault_path cfg sessions env e h1 hws] at h
      simp at h
    | none =>
      cases hc : (consumeOf cfg env).cancelled with
      | true =>
        rw [execute_canceled_path cfg sessions env h1 hws hc] at h
        simp at h
      | false =>
        cases hsf : env.streamFault with
        | some exc =>
          rw [execute_failed_path cfg sessions env exc h1 hws hc hsf] at h
          simp at h
        | none => exact ⟨h1, rfl, rfl, rfl⟩

theorem consumeOf_cancelled_shape (cfg : ClaudeCodeConfig) (env : ExecEnv)
    (hc : (consumeOf cfg env).cancelled = true) :
    ∃ k, consumeOf cfg env =
      ⟨streamEvents cfg.verbose (orEmpty env.taskId) (orEmpty env.contextId) env.taskId
         (env.stream.take k) ++
         [canceledEvent (orEmpty env.taskId) (orEmpty env.contextId)],
       streamLogs cfg.verbose (orEmpty env.taskId) (orEmpty env.contextId) env.taskId
         (env.stream.take k),
       streamFragments (env.stream.take k),
       streamSession (env.stream.take k) none, true⟩ := by
  have hhits : cancelHits (effCancelAt env) 0 env.stream.length = true := by
    have := consume_cancelled_eq cfg.verbose (orEmpty env.taskId) (orEmpty env.contextId)
      env.taskId (effCancelAt env) env.stream 0 [] none
    rw [consumeOf] at hc
    rw [hc] at this
    exact this.symm
  cases heff : effCancelAt env with
  | none => rw [heff] at hhits; simp [cancelHits] at hhits
  | some k =>
    rw [heff] at hhits
    simp only [cancelHits, Bool.and_eq_true, decide_eq_true_eq] at hhits
    refine ⟨k, ?_⟩
    rw [consumeOf, heff]
    have := consume_cancel_shape cfg.verbose (orEmpty env.taskId) (orEmpty env.contextId)
      env.taskId k env.stream 0 [] none (Nat.zero_le k) (by omega)
    simpa using this

/-- Claim C7: calling `cancel` for a task id with no registered cancellation
flag (an unknown or not-currently-running task) raises no fault — the model
function is total — and enqueues exactly one terminal canceled status event. -/
theorem C7_cancel_without_active_execution (cancelEvents : List String)
    (taskId contextId : Option String)
    (h : cancelEvents.contains (orEmpty taskId) = false) :
    ClaudeCodeExecutor.cancel cancelEvents taskId contextId =
      ([canceledEvent (orEmpty taskId) (orEmpty contextId)], false) := by
  have h' : orEmpty taskId ∉ cancelEvents := by simpa using h
  simp [ClaudeCodeExecutor.cancel, h', canceledEvent]

/-- Witness for C7: cancelling task "t2" while only "t1" is running. -/
theorem C7_cancel_without_active_execution_witness :
    (["t1"].contains (orEmpty (some "t2")) = false) ∧
    ClaudeCodeExecutor.cancel ["t1"] (some "t2") (some "c") =
      ([canceledEvent "t2" "c"], false) :=
  ⟨by decide, C7_cancel_without_active_execution ["t1"] (some "t2") (some "c") (by decide)⟩

/-- Claim C9: an invocation whose extracted input payload is empty enqueues a
single advisory message event and returns at once: no working status event, no
workspace creation, no cancellation-flag registration, the session registry is
unchanged, and no terminal state — in particular not `failed` — is entered. -/
theorem C9_empty_input_advisory (cfg : ClaudeCodeConfig) (sessions : List (String × String))
    (env : ExecEnv) (h : extract_user_text env.messageParts = "") :
    ClaudeCodeExecutor.execute cfg sessions env =
      { events := [emptyInputAdvisory], logs := [], sessions := sessions, uncaught := none
        wsCreated := false, cancelRegistered := false, optsUsed := none, terminal := none } := by
  simp [ClaudeCodeExecutor.execute, h]

/-- Witness for C9: a message whose only part is an empty text part extracts
to the empty payload and takes the advisory branch. -/
theorem C9_empty_input_advisory_witness :
    (extract_user_text (ExecEnv.messageParts
        { messageParts := some [APart.textPart ""], taskId := some "t9", contextId := none,
          stream := [EngineMsg.result (some "s")], streamFault := none, wsFault := none,
          cancelAt := none, freshWsName := "w" }) = "") ∧
    ClaudeCodeExecutor.execute (defaultConfig "/ws") [("t9", "s0")]
        { messageParts := some [APart.textPart ""], taskId := some "t9", contextId := none,
          stream := [EngineMsg.result (some "s")], streamFault := none, wsFault := none,
          cancelAt := none, freshWsName := "w" } =
      { events := [emptyInputAdvisory], logs := [], sessions := [("t9", "s0")], uncaught := none
        wsCreated := false, cancelRegistered := false, optsUsed := none, terminal := none } :=
  ⟨by decide, C9_empty_input_advisory (defaultConfig "/ws") [("t9", "s0")] _ (by decide)⟩

/-- Claim C10: a run that terminates `failed` or `canceled` leaves the session
registry exactly as it was before the call, even if the engine stream reported
a session id before the fault or cancellation was observed; only the completed
path writes the mapping. -/
theorem C10_sessions_unchanged_on_failure (cfg : ClaudeCodeConfig)
    (sessions : List (String × String)) (env : ExecEnv)
    (h : (ClaudeCodeExecutor.execute cfg sessions env).terminal = some TState.failed ∨
         (ClaudeCodeExecutor.execute cfg sessions env).terminal = some TState.canceled) :
    (ClaudeCodeExecutor.execute cfg sessions env).sessions = sessions := by
  by_cases h1 : extract_user_text env.messageParts = ""
  · rw [execute_empty_path cfg sessions env h1]
  · cases hws : env.wsFault with
    | some e => rw [execute_wsfault_path cfg sessions env e h1 hws]
    | none =>
      cases hc : (consumeOf cfg env).cancelled with
      | true => rw [execute_canceled_path cfg sessions env h1 hws hc]
      | false =>
        cases hsf : env.streamFault with
        | some exc => rw [execute_failed_path cfg sessions env exc h1 hws hc hsf]
        | none =>
          rw [execute_completed_path cfg sessions env h1 hws hc hsf] at h
          simp at h

/-- Witness for C10: the stream reports session id "s1" and then the stream
faults; the registry keeps its previous binding for the task. -/
theorem C10_sessions_unchanged_on_failure_witness :
    ((ClaudeCodeExecutor.execute (defaultConfig "/ws") [("t", "old")]
        { messageParts := some [APart.textPart "go"], taskId := some "t", contextId := none,
          stream := [EngineMsg.result (some "s1")], streamFault := some "boom",
          wsFault := none, cancelAt := none, freshWsName := "w" }).terminal =
        some TState.failed) ∧
    (ClaudeCodeExecutor.execute (defaultConfig "/ws") [("t", "old")]
        { messageParts := some [APart.textPart "go"], taskId := some "t", contextId := none,
          stream := [EngineMsg.result (some "s1")], streamFault := some "boom",
          wsFault := none, cancelAt := none, freshWsName := "w" }).sessions = [("t", "old")] :=
  ⟨by decide,
   C10_sessions_unchanged_on_failure (defaultConfig "/ws") [("t", "old")] _
     (Or.inl (by decide))⟩

/-- Claim C6: when a task id holds a recorded session id from a previous
completed run, the next execution for that task id passes options configured
for session continuation (`resume` set to that id and `continue_conversation`
enabled) to the engine; for a falsy task id or one with no recorded session,
the options are not configured for continuation. -/
theorem C6_session_continuation :
    (∀ (cfg : ClaudeCodeConfig) (sessions : List (String × String)) (env env2 : ExecEnv)
        (t sid : String),
      env.taskId = some t → t ≠ "" → sid ≠ "" →
      (ClaudeCodeExecutor.execute cfg sessions env).terminal = some TState.completed →
      streamSession env.stream none = some sid →
      env2.taskId = some t → extract_user_text env2.messageParts ≠ "" → env2.wsFault = none →
      ∃ opts, (ClaudeCodeExecutor.execute cfg
          (ClaudeCodeExecutor.execute cfg sessions env).sessions env2).optsUsed = some opts ∧
        opts.resume = some sid ∧ opts.continue_conversation = true) ∧
    (∀ (cfg : ClaudeCodeConfig) (sessions : List (String × String)) (task_id : Option String)
        (ws : String),
      pyTruthy task_id = false ∨ SessionTracker.get sessions (orEmpty task_id) = none →
      (build_options cfg sessions task_id ws).resume = none ∧
      (build_options cfg sessions task_id ws).continue_conversation = false) := by
  constructor
  · intro cfg sessions env env2 t sid htid ht hsid hterm hstream htid2 hne2 hws2
    have key : (ClaudeCodeExecutor.execute cfg sessions env).sessions =
        SessionTracker.set sessions t sid := by
      by_cases h1 : extract_user_text env.messageParts = ""
      · rw [execute_empty_path cfg sessions env h1] at hterm
        simp at hterm
      · cases hws : env.wsFault with
        | some e =>
          rw [execute_wsfault_path cfg sessions env e h1 hws] at hterm
          simp at hterm
        | none =>
          cases hc : (consumeOf cfg env).cancelled with
          | true =>
            rw [execute_canceled_path cfg sessions env h1 hws hc] at hterm
            simp at hterm
          | false =>
            cases hsf : env.streamFault with
            | some exc =>
              rw [execute_failed_path cfg sessions env exc h1 hws hc hsf] at hterm
              simp at hterm
            | none =>
              rw [execute_completed_path cfg sessions env h1 hws hc hsf]
              have hlo := consumeOf_not_cancelled cfg env hc
              simp [hlo, hstream, htid, pyTruthy, orEmpty, bne_iff_ne, ht, hsid]
    have hopts : ∀ s2 : List (String × String),
        (ClaudeCodeExecutor.execute cfg s2 env2).optsUsed = some (optsOf cfg s2 env2) := by
      intro s2
      by_cases hc2 : (consumeOf cfg env2).cancelled = true
      · rw [execute_canceled_path cfg s2 env2 hne2 hws2 hc2]
      · cases hsf2 : env2.streamFault with
        | some exc =>
          rw [execute_failed_path cfg s2 env2 exc hne2 hws2 (by simpa using hc2) hsf2]
        | none =>
          rw [execute_completed_path cfg s2 env2 hne2 hws2 (by simpa using hc2) hsf2]
    have hget : SessionTracker.get (SessionTracker.set sessions t sid)
        (orEmpty env2.taskId) = some sid := by
      rw [htid2]
      exact SessionTracker.get_set t sid sessions
    have hcfgd := build_options_configured cfg (SessionTracker.set sessions t sid) env2.taskId
      (workspace_for_task cfg.workspace_root env2.taskId env2.freshWsName) sid
      (by simp [htid2, pyTruthy, bne_iff_ne, ht]) hget hsid
    refine ⟨optsOf cfg (SessionTracker.set sessions t sid) env2, ?_, hcfgd.1, hcfgd.2⟩
    rw [key]
    exact hopts (SessionTracker.set sessions t sid)
  · intro cfg sessions task_id ws h
    exact build_options_not_configured cfg sessions task_id ws h

/-- Witness for C6: task "t1" completes with session id "s1"; the next run for
"t1" is configured to resume "s1", and a task with no recorded session gets
unconfigured options. -/
theorem C6_session_continuation_witness :
    (∃ opts, (ClaudeCodeExecutor.execute (defaultConfig "/ws")
        (ClaudeCodeExecutor.execute (defaultConfig "/ws") []
          { messageParts := some [APart.textPart "hi"], taskId := some "t1",
            contextId := some "c",
            stream := [EngineMsg.assistant [Block.text "a"], EngineMsg.result (some "s1")],
            streamFault := none, wsFault := none, cancelAt := none,
            freshWsName := "w" }).sessions
        { messageParts := some [APart.textPart "again"], taskId := some "t1",
          contextId := some "c", stream := [], streamFault := none, wsFault := none,
          cancelAt := none, freshWsName := "w2" }).optsUsed = some opts ∧
      opts.resume = some "s1" ∧ opts.continue_conversation = true) ∧
    ((build_options (defaultConfig "/ws") [] (some "t9") "/ws/t9").resume = none ∧
     (build_options (defaultConfig "/ws") [] (some "t9") "/ws/t9").continue_conversation =
       false) :=
  ⟨C6_session_continuation.1 (defaultConfig "/ws") [] _ _ "t1" "s1" rfl (by decide) (by decide)
     (by decide) (by decide) rfl (by decide) rfl,
   C6_session_continuation.2 (defaultConfig "/ws") [] (some "t9") "/ws/t9"
     (Or.inr (by decide))⟩

/-- Claim C5: when cancellation is observed at iteration `k` of an active
consumption loop (the flag exists only for a truthy task id and `k` is within
the stream), the run terminates `canceled`: the events are the initial working
status, the translator output of exactly the first `k` engine messages, and a
final terminal canceled status; no engine output past the first `k` messages
is consumed, and no non-terminal event follows the observation. -/
theorem C5_cancellation_stops_consumption (cfg : ClaudeCodeConfig)
    (sessions : List (String × String)) (env : ExecEnv) (k : Nat)
    (hne : extract_user_text env.messageParts ≠ "") (hws : env.wsFault = none)
    (htid : pyTruthy env.taskId = true) (hk : env.cancelAt = some k)
    (hlt : k < env.stream.length) :
    (ClaudeCodeExecutor.execute cfg sessions env).terminal = some TState.canceled ∧
    (ClaudeCodeExecutor.execute cfg sessions env).events =
      initialWorkingEvent (orEmpty env.taskId) (orEmpty env.contextId) ::
        streamEvents cfg.verbose (orEmpty env.taskId) (orEmpty env.contextId) env.taskId
          (env.stream.take k) ++
        [canceledEvent (orEmpty env.taskId) (orEmpty env.contextId)] ∧
    (∀ e ∈ streamEvents cfg.verbose (orEmpty env.taskId) (orEmpty env.contextId) env.taskId
          (env.stream.take k),
      e.isFinalStatus = false) := by
  have heff : effCancelAt env = some k := by
    simp [effCancelAt, htid, hk]
  have hshape := consume_cancel_shape cfg.verbose (orEmpty env.taskId) (orEmpty env.contextId)
    env.taskId k env.stream 0 [] none (Nat.zero_le k) (by omega)
  have hlo : consumeOf cfg env =
      ⟨streamEvents cfg.verbose (orEmpty env.taskId) (orEmpty env.contextId) env.taskId
         (env.stream.take k) ++
         [canceledEvent (orEmpty env.taskId) (orEmpty env.contextId)],
       streamLogs cfg.verbose (orEmpty env.taskId) (orEmpty env.contextId) env.taskId
         (env.stream.take k),
       streamFragments (env.stream.take k),
       streamSession (env.stream.take k) none, true⟩ := by
    rw [consumeOf, heff]
    simpa using hshape
  have hc : (consumeOf cfg env).cancelled = true := by rw [hlo]
  rw [execute_canceled_path cfg sessions env hne hws hc]
  refine ⟨rfl, ?_, ?_⟩
  · simp [hlo]
  · intro e he
    exact (streamEvents_not_final cfg.verbose (orEmpty env.taskId) (orEmpty env.contextId)
      env.taskId (env.stream.take k) e he).1

/-- Witness for C5: a two-message stream with the flag observed at iteration 1
processes only the first message and then emits the terminal canceled status. -/
theorem C5_cancellation_stops_consumption_witness :
    ((ClaudeCodeExecutor.execute (defaultConfig "/ws") []
        { messageParts := some [APart.textPart "hi"], taskId := some "t5",
          contextId := some "c",
          stream := [EngineMsg.assistant [Block.text "a"], EngineMsg.assistant [Block.text "b"]],
          streamFault := none, wsFault := none, cancelAt := some 1,
          freshWsName := "w" }).terminal = some TState.canceled) ∧
    ((ClaudeCodeExecutor.execute (defaultConfig "/ws") []
        { messageParts := some [APart.textPart "hi"], taskId := some "t5",
          contextId := some "c",
          stream := [EngineMsg.assistant [Block.text "a"], EngineMsg.assistant [Block.text "b"]],
          streamFault := none, wsFault := none, cancelAt := some 1,
          freshWsName := "w" }).events =
      initialWorkingEvent "t5" "c" ::
        streamEvents false "t5" "c" (some "t5")
          ([EngineMsg.assistant [Block.text "a"], EngineMsg.assistant [Block.text "b"]].take 1) ++
        [canceledEvent "t5" "c"]) :=
  ⟨(C5_cancellation_stops_consumption (defaultConfig "/ws") [] _ 1 (by decide) rfl (by decide)
      rfl (by decide)).1,
   (C5_cancellation_stops_consumption (defaultConfig "/ws") [] _ 1 (by decide) rfl (by decide)
      rfl (by decide)).2.1⟩

/-- Counterexample to C8 as stated: two invocations identical except for the
tool input produce identical event sequences — the working status event names
only the tool — while the serialized inputs differ and the console logs
differ.  The status event therefore does not summarize a serialized form of
the tool input; only the console log does. -/
theorem C8_counterexample :
    input_summary (ToolInput.mapping [("path", "\"/a\"")]) ≠
      input_summary (ToolInput.mapping [("path", "\"/b\"")]) ∧
    (ClaudeCodeExecutor.execute { defaultConfig "/ws" with verbose := true } []
        { messageParts := some [APart.textPart "hi"], taskId := some "t8",
          contextId := some "c",
          stream := [EngineMsg.assistant
            [Block.toolUse "Read" (ToolInput.mapping [("path", "\"/a\"")])]],
          streamFault := none, wsFault := none, cancelAt := none,
          freshWsName := "w" }).events =
      (ClaudeCodeExecutor.execute { defaultConfig "/ws" with verbose := true } []
        { messageParts := some [APart.textPart "hi"], taskId := some "t8",
          contextId := some "c",
          stream := [EngineMsg.assistant
            [Block.toolUse "Read" (ToolInput.mapping [("path", "\"/b\"")])]],
          streamFault := none, wsFault := none, cancelAt := none,
          freshWsName := "w" }).events ∧
    (ClaudeCodeExecutor.execute { defaultConfig "/ws" with verbose := true } []
        { messageParts := some [APart.textPart "hi"], taskId := some "t8",
          contextId := some "c",
          stream := [EngineMsg.assistant
            [Block.toolUse "Read" (ToolInput.mapping [("path", "\"/a\"")])]],
          streamFault := none, wsFault := none, cancelAt := none,
          freshWsName := "w" }).logs ≠
      (ClaudeCodeExecutor.execute { defaultConfig "/ws" with verbose := true } []
        { messageParts := some [APart.textPart "hi"], taskId := some "t8",
          contextId := some "c",
          stream := [EngineMsg.assistant
            [Block.toolUse "Read" (ToolInput.mapping [("path", "\"/b\"")])]],
          streamFault := none, wsFault := none, cancelAt := none,
          freshWsName := "w" }).logs := by
  decide

/-- Claim C8, amended: for every tool-invocation block the bridge emits
exactly one non-final working status event naming the tool; the serialized
form of the input — `json.dumps` for a plain mapping, a string coercion for
any other value (the serialization is total, so a non-mapping input cannot
crash it) — appears in the console log line, not in the status event. -/
theorem C8_tool_use_status (verbose : Bool) (tid ctx : String) (task_id : Option String)
    (name : String) (input : ToolInput) :
    (processBlock verbose tid ctx task_id (Block.toolUse name input)).events =
      [Event.status ⟨tid, ctx, TState.working,
         some ⟨"🔧 Using tool: " ++ name, false⟩, false⟩] ∧
    (processBlock verbose tid ctx task_id (Block.toolUse name input)).logs =
      log_to_console verbose "TOOL_USE" (name ++ "(" ++ input_summary input ++ ")") task_id ∧
    (∀ es, input = ToolInput.mapping es → input_summary input = json_dumps es) ∧
    (∀ s, input = ToolInput.nonMapping s → input_summary input = s) := by
  refine ⟨rfl, rfl, ?_, ?_⟩ <;> (intro x hx; rw [hx]) <;> rfl

/-- Witness for C8: a non-mapping tool input is serialized by string coercion
and the status event still names only the tool. -/
theorem C8_tool_use_status_witness :
    (processBlock true "t" "c" (some "t") (Block.toolUse "Bash" (ToolInput.nonMapping "ls"))).events =
      [Event.status ⟨"t", "c", TState.working,
         some ⟨"🔧 Using tool: " ++ "Bash", false⟩, false⟩] ∧
    input_summary (ToolInput.nonMapping "ls") = "ls" :=
  ⟨(C8_tool_use_status true "t" "c" (some "t") "Bash" (ToolInput.nonMapping "ls")).1,
   (C8_tool_use_status true "t" "c" (some "t") "Bash" (ToolInput.nonMapping "ls")).2.2.2
     "ls" rfl⟩

/-- Counterexample to C1 as stated: a completed run whose stream yields the
assistant fragments "a" and "b" emits an artifact with text "a\nb", the
newline-joined form, not the plain concatenation "ab"; and a run observing
only one empty-text fragment emits the sentinel "Done." rather than the empty
concatenation of the observed fragments. -/
theorem C1_counterexample :
    ((ClaudeCodeExecutor.execute (defaultConfig "/ws") []
        { messageParts := some [APart.textPart "hi"], taskId := some "t1",
          contextId := some "c",
          stream := [EngineMsg.assistant [Block.text "a"], EngineMsg.assistant [Block.text "b"]],
          streamFault := none, wsFault := none, cancelAt := none,
          freshWsName := "w" }).terminal = some TState.completed ∧
     artifactTexts (ClaudeCodeExecutor.execute (defaultConfig "/ws") []
        { messageParts := some [APart.textPart "hi"], taskId := some "t1",
          contextId := some "c",
          stream := [EngineMsg.assistant [Block.text "a"], EngineMsg.assistant [Block.text "b"]],
          streamFault := none, wsFault := none, cancelAt := none,
          freshWsName := "w" }).events = ["a\nb"] ∧
     String.join ["a", "b"] = "ab" ∧ ("a\nb" : String) ≠ "ab") ∧
    ((ClaudeCodeExecutor.execute (defaultConfig "/ws") []
        { messageParts := some [APart.textPart "hi"], taskId := some "t1",
          contextId := some "c",
          stream := [EngineMsg.assistant [Block.text ""]],
          streamFault := none, wsFault := none, cancelAt := none,
          freshWsName := "w" }).terminal = some TState.completed ∧
     artifactTexts (ClaudeCodeExecutor.execute (defaultConfig "/ws") []
        { messageParts := some [APart.textPart "hi"], taskId := some "t1",
          contextId := some "c",
          stream := [EngineMsg.assistant [Block.text ""]],
          streamFault := none, wsFault := none, cancelAt := none,
          freshWsName := "w" }).events = ["Done."]) := by
  decide

/-- Claim C1, amended: for every execution that terminates completed, exactly
one artifact event is emitted, immediately before the terminal completed
status (the last event), and its text equals the newline-joined concatenation,
in arrival order, of the non-empty assistant text fragments observed, or the
sentinel "Done." when none were collected. -/
theorem C1_artifact_text (cfg : ClaudeCodeConfig) (sessions : List (String × String))
    (env : ExecEnv)
    (h : (ClaudeCodeExecutor.execute cfg sessions env).terminal = some TState.completed) :
    ∃ pre, (∀ e ∈ pre, e.isArtifact = false ∧ e.isFinalStatus = false) ∧
      (ClaudeCodeExecutor.execute cfg sessions env).events =
        pre ++ [artifactEvent (orEmpty env.taskId) (orEmpty env.contextId)
                  (joinedText (streamFragments env.stream)),
                completedEvent (orEmpty env.taskId) (orEmpty env.contextId)] ∧
      joinedText (streamFragments env.stream) =
        (if streamFragments env.stream = [] then "Done."
         else String.intercalate "\n" (streamFragments env.stream)) := by
  obtain ⟨hne, hws, hc, hsf⟩ := execute_completed_inv cfg sessions env h
  have hlo := consumeOf_not_cancelled cfg env hc
  rw [execute_completed_path cfg sessions env hne hws hc hsf]
  refine ⟨initialWorkingEvent (orEmpty env.taskId) (orEmpty env.contextId) ::
    streamEvents cfg.verbose (orEmpty env.taskId) (orEmpty env.contextId) env.taskId env.stream,
    ?_, ?_, rfl⟩
  · intro e he
    rcases List.mem_cons.mp he with rfl | he'
    · exact ⟨rfl, rfl⟩
    · have hnf := streamEvents_not_final cfg.verbose (orEmpty env.taskId)
        (orEmpty env.contextId) env.taskId env.stream e he'
      exact ⟨hnf.2, hnf.1⟩
  · simp [hlo]

/-- Witness for C1 (amended): a completed two-fragment run has artifact text
"a" joined to "b" by a newline, placed just before the terminal status. -/
theorem C1_artifact_text_witness :
    ((ClaudeCodeExecutor.execute (defaultConfig "/ws") []
        { messageParts := some [APart.textPart "hi"], taskId := some "t1",
          contextId := some "c",
          stream := [EngineMsg.assistant [Block.text "a", Block.text "b"]],
          streamFault := none, wsFault := none, cancelAt := none,
          freshWsName := "w" }).terminal = some TState.completed) ∧
    (∃ pre, (∀ e ∈ pre, e.isArtifact = false ∧ e.isFinalStatus = false) ∧
      (ClaudeCodeExecutor.execute (defaultConfig "/ws") []
        { messageParts := some [APart.textPart "hi"], taskId := some "t1",
          contextId := some "c",
          stream := [EngineMsg.assistant [Block.text "a", Block.text "b"]],
          streamFault := none, wsFault := none, cancelAt := none,
          freshWsName := "w" }).events =
        pre ++ [artifactEvent "t1" "c"
                  (joinedText (streamFragments
                    [EngineMsg.assistant [Block.text "a", Block.text "b"]])),
                completedEvent "t1" "c"] ∧
      joinedText (streamFragments [EngineMsg.assistant [Block.text "a", Block.text "b"]]) =
        (if streamFragments [EngineMsg.assistant [Block.text "a", Block.text "b"]] = []
         then "Done."
         else String.intercalate "\n"
           (streamFragments [EngineMsg.assistant [Block.text "a", Block.text "b"]]))) :=
  ⟨by decide, C1_artifact_text (defaultConfig "/ws") [] _ (by decide)⟩

/-- Counterexample to C2 as stated: a non-empty invocation whose workspace
directory creation raises an IOError emits no events at all — in particular
not exactly one terminal status event — and the exception escapes `execute`. -/
theorem C2_counterexample :
    extract_user_text (some [APart.textPart "go"]) ≠ "" ∧
    (ClaudeCodeExecutor.execute (defaultConfig "/ws") []
        { messageParts := some [APart.textPart "go"], taskId := some "t2",
          contextId := none, stream := [], streamFault := none,
          wsFault := some "Permission denied", cancelAt := none,
          freshWsName := "w" }).events = [] ∧
    (ClaudeCodeExecutor.execute (defaultConfig "/ws") []
        { messageParts := some [APart.textPart "go"], taskId := some "t2",
          contextId := none, stream := [], streamFault := none,
          wsFault := some "Permission denied", cancelAt := none,
          freshWsName := "w" }).uncaught = some "Permission denied" := by
  decide

/-- Claim C2, amended: for every non-empty input payload whose workspace
directory creation does not fault, the invocation emits exactly one
final-flagged status event and it is the last event of the sequence.  (When
workspace creation raises, no event is emitted at all and the exception
escapes — see the counterexample.) -/
theorem C2_single_terminal_last (cfg : ClaudeCodeConfig)
    (sessions : List (String × String)) (env : ExecEnv)
    (hne : extract_user_text env.messageParts ≠ "") (hws : env.wsFault = none) :
    ∃ pre e, (ClaudeCodeExecutor.execute cfg sessions env).events = pre ++ [e] ∧
      e.isFinalStatus = true ∧ ∀ x ∈ pre, x.isFinalStatus = false := by
  cases hc : (consumeOf cfg env).cancelled with
  | true =>
    obtain ⟨k, hlo⟩ := consumeOf_cancelled_shape cfg env hc
    rw [execute_canceled_path cfg sessions env hne hws hc]
    refine ⟨initialWorkingEvent (orEmpty env.taskId) (orEmpty env.contextId) ::
      streamEvents cfg.verbose (orEmpty env.taskId) (orEmpty env.contextId) env.taskId
        (env.stream.take k),
      canceledEvent (orEmpty env.taskId) (orEmpty env.contextId), ?_, rfl, ?_⟩
    · simp [hlo]
    · intro x hx
      rcases List.mem_cons.mp hx with rfl | hx'
      · rfl
      · exact (streamEvents_not_final cfg.verbose (orEmpty env.taskId) (orEmpty env.contextId)
          env.taskId (env.stream.take k) x hx').1
  | false =>
    have hlo := consumeOf_not_cancelled cfg env hc
    cases hsf : env.streamFault with
    | some exc =>
      rw [execute_failed_path cfg sessions env exc hne hws hc hsf]
      refine ⟨initialWorkingEvent (orEmpty env.taskId) (orEmpty env.contextId) ::
        streamEvents cfg.verbose (orEmpty env.taskId) (orEmpty env.contextId) env.taskId
          env.stream,
        failedEvent (orEmpty env.taskId) (orEmpty env.contextId) exc, ?_, rfl, ?_⟩
      · simp [hlo]
      · intro x hx
        rcases List.mem_cons.mp hx with rfl | hx'
        · rfl
        · exact (streamEvents_not_final cfg.verbose (orEmpty env.taskId)
            (orEmpty env.contextId) env.taskId env.stream x hx').1
    | none =>
      rw [execute_completed_path cfg sessions env hne hws hc hsf]
      refine ⟨initialWorkingEvent (orEmpty env.taskId) (orEmpty env.contextId) ::
        (streamEvents cfg.verbose (orEmpty env.taskId) (orEmpty env.contextId) env.taskId
          env.stream ++
         [artifactEvent (orEmpty env.taskId) (orEmpty env.contextId)
            (joinedText (streamFragments env.stream))]),
        completedEvent (orEmpty env.taskId) (orEmpty env.contextId), ?_, rfl, ?_⟩
      · simp [hlo]
      · intro x hx
        rcases List.mem_cons.mp hx with rfl | hx'
        · rfl
        · rcases List.mem_append.mp hx' with hx2 | hx3
          · exact (streamEvents_not_final cfg.verbose (orEmpty env.taskId)
              (orEmpty env.contextId) env.taskId env.stream x hx2).1
          · rw [List.mem_singleton.mp hx3]
            rfl

/-- Witness for C2 (amended): a completed one-fragment run has its terminal
completed status as its unique final-flagged event, in last position. -/
theorem C2_single_terminal_last_witness :
    (extract_user_text (ExecEnv.messageParts
        { messageParts := some [APart.textPart "go"], taskId := some "t2",
          contextId := none, stream := [EngineMsg.assistant [Block.text "ok"]],
          streamFault := none, wsFault := none, cancelAt := none,
          freshWsName := "w" }) ≠ "") ∧
    (∃ pre e, (ClaudeCodeExecutor.execute (defaultConfig "/ws") []
        { messageParts := some [APart.textPart "go"], taskId := some "t2",
          contextId := none, stream := [EngineMsg.assistant [Block.text "ok"]],
          streamFault := none, wsFault := none, cancelAt := none,
          freshWsName := "w" }).events = pre ++ [e] ∧
      e.isFinalStatus = true ∧ ∀ x ∈ pre, x.isFinalStatus = false) :=
  ⟨by decide, C2_single_terminal_last (defaultConfig "/ws") [] _ (by decide) rfl⟩

/-- Counterexample to C3 as stated: a failed run emits the initial working
status and the terminal failed status with no artifact-update event in
between, so the outbound sequence is not "non-final statuses, then exactly
one artifact-update event, then the terminal status". -/
theorem C3_counterexample :
    extract_user_text (some [APart.textPart "go"]) ≠ "" ∧
    (ClaudeCodeExecutor.execute (defaultConfig "/ws") []
        { messageParts := some [APart.textPart "go"], taskId := some "t3",
          contextId := none, stream := [], streamFault := some "boom",
          wsFault := none, cancelAt := none, freshWsName := "w" }).terminal =
      some TState.failed ∧
    artifactTexts (ClaudeCodeExecutor.execute (defaultConfig "/ws") []
        { messageParts := some [APart.textPart "go"], taskId := some "t3",
          contextId := none, stream := [], streamFault := some "boom",
          wsFault := none, cancelAt := none, freshWsName := "w" }).events = [] ∧
    (ClaudeCodeExecutor.execute (defaultConfig "/ws") []
        { messageParts := some [APart.textPart "go"], taskId := some "t3",
          contextId := none, stream := [], streamFault := some "boom",
          wsFault := none, cancelAt := none, freshWsName := "w" }).events =
      [initialWorkingEvent "t3" "", failedEvent "t3" "" "boom"] := by
  decide

/-- Claim C3, amended: for every non-empty input with fault-free workspace
creation, the outbound sequence is zero or more non-final (non-artifact)
events followed by: exactly one artifact-update event and then the terminal
completed status, when the run completes; or just a terminal failed/canceled
status with no artifact otherwise.  Every artifact-update ever emitted is
single-chunk: `lastChunk` true and `append` false. -/
theorem C3_artifact_only_on_completion (cfg : ClaudeCodeConfig)
    (sessions : List (String × String)) (env : ExecEnv)
    (hne : extract_user_text env.messageParts ≠ "") (hws : env.wsFault = none) :
    (∃ pre, (∀ x ∈ pre, x.isFinalStatus = false ∧ x.isArtifact = false) ∧
      ((ClaudeCodeExecutor.execute cfg sessions env).events =
          pre ++ [artifactEvent (orEmpty env.taskId) (orEmpty env.contextId)
                    (joinedText (streamFragments env.stream)),
                  completedEvent (orEmpty env.taskId) (orEmpty env.contextId)] ∨
        ∃ st : StatusUpdate, st.final = true ∧
          (st.state = TState.failed ∨ st.state = TState.canceled) ∧
          (ClaudeCodeExecutor.execute cfg sessions env).events =
            pre ++ [Event.status st])) ∧
    (∀ a : ArtifactUpdate,
      Event.artifact a ∈ (ClaudeCodeExecutor.execute cfg sessions env).events →
      a.lastChunk = true ∧ a.append = false) := by
  cases hc : (consumeOf cfg env).cancelled with
  | true =>
    obtain ⟨k, hlo⟩ := consumeOf_cancelled_shape cfg env hc
    rw [execute_canceled_path cfg sessions env hne hws hc]
    constructor
    · refine ⟨initialWorkingEvent (orEmpty env.taskId) (orEmpty env.contextId) ::
        streamEvents cfg.verbose (orEmpty env.taskId) (orEmpty env.contextId) env.taskId
          (env.stream.take k), ?_,
        Or.inr ⟨⟨orEmpty env.taskId, orEmpty env.contextId, TState.canceled, none, true⟩,
          rfl, Or.inr rfl, ?_⟩⟩
      · intro x hx
        rcases List.mem_cons.mp hx with rfl | hx'
        · exact ⟨rfl, rfl⟩
        · have hnf := streamEvents_not_final cfg.verbose (orEmpty env.taskId)
            (orEmpty env.contextId) env.taskId (env.stream.take k) x hx'
          exact ⟨hnf.1, hnf.2⟩
      · simp [hlo, canceledEvent]
    · intro a ha
      simp only [hlo] at ha
      rcases List.mem_cons.mp ha with h1 | h2
      · simp [initialWorkingEvent] at h1
      · rcases List.mem_append.mp h2 with h3 | h4
        · have := (streamEvents_not_final cfg.verbose (orEmpty env.taskId)
            (orEmpty env.contextId) env.taskId (env.stream.take k) _ h3).2
          simp [Event.isArtifact] at this
        · have h5 := List.mem_singleton.mp h4
          simp [canceledEvent] at h5
  | false =>
    have hlo := consumeOf_not_cancelled cfg env hc
    cases hsf : env.streamFault with
    | some exc =>
      rw [execute_failed_path cfg sessions env exc hne hws hc hsf]
      constructor
      · refine ⟨initialWorkingEvent (orEmpty env.taskId) (orEmpty env.contextId) ::
          streamEvents cfg.verbose (orEmpty env.taskId) (orEmpty env.contextId) env.taskId
            env.stream, ?_,
          Or.inr ⟨⟨orEmpty env.taskId, orEmpty env.contextId, TState.failed,
            some ⟨"Execution error: " ++ exc, true⟩, true⟩, rfl, Or.inl rfl, ?_⟩⟩
        · intro x hx
          rcases List.mem_cons.mp hx with rfl | hx'
          · exact ⟨rfl, rfl⟩
          · have hnf := streamEvents_not_final cfg.verbose (orEmpty env.taskId)
              (orEmpty env.contextId) env.taskId env.stream x hx'
            exact ⟨hnf.1, hnf.2⟩
        · simp [hlo, failedEvent]
      · intro a ha
        simp only [hlo] at ha
        rcases List.mem_cons.mp ha with h1 | h2
        · simp [initialWorkingEvent] at h1
        · rcases List.mem_append.mp h2 with h3 | h4
          · have := (streamEvents_not_final cfg.verbose (orEmpty env.taskId)
              (orEmpty env.contextId) env.taskId env.stream _ h3).2
            simp [Event.isArtifact] at this
          · have h5 := List.mem_singleton.mp h4
            simp [failedEvent] at h5
    | none =>
      rw [execute_completed_path cfg sessions env hne hws hc hsf]
      constructor
      · refine ⟨initialWorkingEvent (orEmpty env.taskId) (orEmpty env.contextId) ::
          streamEvents cfg.verbose (orEmpty env.taskId) (orEmpty env.contextId) env.taskId
            env.stream, ?_, Or.inl ?_⟩
        · intro x hx
          rcases List.mem_cons.mp hx with rfl | hx'
          · exact ⟨rfl, rfl⟩
          · have hnf := streamEvents_not_final cfg.verbose (orEmpty env.taskId)
              (orEmpty env.contextId) env.taskId env.stream x hx'
            exact ⟨hnf.1, hnf.2⟩
        · simp [hlo]
      · intro a ha
        simp only [hlo] at ha
        rcases List.mem_cons.mp ha with h1 | h2
        · simp [initialWorkingEvent] at h1
        · rcases List.mem_append.mp h2 with h3 | h4
          · have := (streamEvents_not_final cfg.verbose (orEmpty env.taskId)
              (orEmpty env.contextId) env.taskId env.stream _ h3).2
            simp [Event.isArtifact] at this
          · rcases List.mem_cons.mp h4 with h5 | h6
            · have : a = ⟨orEmpty env.taskId, orEmpty env.contextId,
                joinedText (streamFragments env.stream), "claude_code_response",
                true, false⟩ := by
                simpa [artifactEvent] using h5
              rw [this]
              exact ⟨rfl, rfl⟩
            · have h7 := List.mem_singleton.mp h6
              simp [completedEvent] at h7

/-- Witness for C3 (amended): a canceled run at iteration 0 produces only the
initial working status and the terminal canceled status, with no artifact. -/
theorem C3_artifact_only_on_completion_witness :
    (extract_user_text (ExecEnv.messageParts
        { messageParts := some [APart.textPart "go"], taskId := some "t3",
          contextId := none, stream := [EngineMsg.assistant [Block.text "x"]],
          streamFault := none, wsFault := none, cancelAt := some 0,
          freshWsName := "w" }) ≠ "") ∧
    ((∃ pre, (∀ x ∈ pre, x.isFinalStatus = false ∧ x.isArtifact = false) ∧
      ((ClaudeCodeExecutor.execute (defaultConfig "/ws") []
          { messageParts := some [APart.textPart "go"], taskId := some "t3",
            contextId := none, stream := [EngineMsg.assistant [Block.text "x"]],
            streamFault := none, wsFault := none, cancelAt := some 0,
            freshWsName := "w" }).events =
          pre ++ [artifactEvent "t3" ""
                    (joinedText (streamFragments [EngineMsg.assistant [Block.text "x"]])),
                  completedEvent "t3" ""] ∨
        ∃ st : StatusUpdate, st.final = true ∧
          (st.state = TState.failed ∨ st.state = TState.canceled) ∧
          (ClaudeCodeExecutor.execute (defaultConfig "/ws") []
            { messageParts := some [APart.textPart "go"], taskId := some "t3",
              contextId := none, stream := [EngineMsg.assistant [Block.text "x"]],
              streamFault := none, wsFault := none, cancelAt := some 0,
              freshWsName := "w" }).events = pre ++ [Event.status st])) ∧
     (∀ a : ArtifactUpdate,
        Event.artifact a ∈ (ClaudeCodeExecutor.execute (defaultConfig "/ws") []
          { messageParts := some [APart.textPart "go"], taskId := some "t3",
            contextId := none, stream := [EngineMsg.assistant [Block.text "x"]],
            streamFault := none, wsFault := none, cancelAt := some 0,
            freshWsName := "w" }).events →
        a.lastChunk = true ∧ a.append = false)) :=
  ⟨by decide, C3_artifact_only_on_completion (defaultConfig "/ws") [] _ (by decide) rfl⟩

/-- Counterexample to C4 as stated: an IOError raised while creating the
workspace directory is NOT caught at the orchestrator boundary — it escapes
`execute` uncaught and no terminal failed status event is emitted. -/
theorem C4_counterexample :
    extract_user_text (some [APart.textPart "build it"]) ≠ "" ∧
    (ClaudeCodeExecutor.execute (defaultConfig "/ws") []
        { messageParts := some [APart.textPart "build it"], taskId := some "t4",
          contextId := none, stream := [], streamFault := none,
          wsFault := some "disk full", cancelAt := none,
          freshWsName := "w" }).uncaught = some "disk full" ∧
    (ClaudeCodeExecutor.execute (defaultConfig "/ws") []
        { messageParts := some [APart.textPart "build it"], taskId := some "t4",
          contextId := none, stream := [], streamFault := none,
          wsFault := some "disk full", cancelAt := none,
          freshWsName := "w" }).events = [] := by
  decide

/-- Claim C4, amended: every fault raised while consuming the engine stream is
caught and converted into a terminal failed status event carrying the fault
description ("Execution error: ..."), and no exception escapes `execute` when
workspace creation succeeds; but an IOError raised while creating the task's
workspace directory escapes `execute` uncaught, before any event is emitted. -/
theorem C4_fault_conversion (cfg : ClaudeCodeConfig) (sessions : List (String × String))
    (env : ExecEnv) (hne : extract_user_text env.messageParts ≠ "") :
    (env.wsFault = none →
      (ClaudeCodeExecutor.execute cfg sessions env).uncaught = none ∧
      (∀ exc, env.streamFault = some exc → (consumeOf cfg env).cancelled = false →
        (ClaudeCodeExecutor.execute cfg sessions env).events =
          (initialWorkingEvent (orEmpty env.taskId) (orEmpty env.contextId) ::
            streamEvents cfg.verbose (orEmpty env.taskId) (orEmpty env.contextId)
              env.taskId env.stream) ++
          [failedEvent (orEmpty env.taskId) (orEmpty env.contextId) exc])) ∧
    (∀ e, env.wsFault = some e →
      (ClaudeCodeExecutor.execute cfg sessions env).uncaught = some e ∧
      (ClaudeCodeExecutor.execute cfg sessions env).events = []) := by
  constructor
  · intro hws
    constructor
    · cases hc : (consumeOf cfg env).cancelled with
      | true => rw [execute_canceled_path cfg sessions env hne hws hc]
      | false =>
        cases hsf : env.streamFault with
        | some exc => rw [execute_failed_path cfg sessions env exc hne hws hc hsf]
        | none => rw [execute_completed_path cfg sessions env hne hws hc hsf]
    · intro exc hsf hc
      rw [execute_failed_path cfg sessions env exc hne hws hc hsf]
      simp [consumeOf_not_cancelled cfg env hc]
  · intro e hwse
    rw [execute_wsfault_path cfg sessions env e hne hwse]
    exact ⟨rfl, rfl⟩

/-- Witness for C4 (amended): a stream fault "boom" is converted into the
terminal failed status carrying the description, and a workspace IOError
escapes uncaught. -/
theorem C4_fault_conversion_witness :
    (extract_user_text (ExecEnv.messageParts
        { messageParts := some [APart.textPart "run"], taskId := some "t4",
          contextId := none, stream := [], streamFault := some "boom",
          wsFault := none, cancelAt := none, freshWsName := "w" }) ≠ "") ∧
    ((ClaudeCodeExecutor.execute (defaultConfig "/ws") []
        { messageParts := some [APart.textPart "run"], taskId := some "t4",
          contextId := none, stream := [], streamFault := some "boom",
          wsFault := none, cancelAt := none, freshWsName := "w" }).uncaught = none ∧
     (ClaudeCodeExecutor.execute (defaultConfig "/ws") []
        { messageParts := some [APart.textPart "run"], taskId := some "t4",
          contextId := none, stream := [], streamFault := some "boom",
          wsFault := none, cancelAt := none, freshWsName := "w" }).events =
        (initialWorkingEvent "t4" "" ::
          streamEvents false "t4" "" (some "t4") []) ++ [failedEvent "t4" "" "boom"]) :=
  ⟨by decide,
   (C4_fault_conversion (defaultConfig "/ws") [] _ (by decide)).1 rfl |>.1,
   ((C4_fault_conversion (defaultConfig "/ws") [] _ (by decide)).1 rfl).2 "boom" rfl rfl⟩

end SSAI
